import Mathlib

/-
  Verification of the cookmyfood recipe application core
  (src/recipe_app.py): the paginated search-result cache and the
  navigation state machine, shallowly embedded in Lean 4.

  The Streamlit session state becomes an explicit AppState record; the
  HTTP layer is abstracted as a parameter (the outcome of the one call
  the code makes in a run), so every operation is a pure function from
  state and response to state.  Python integers are modelled as Int,
  Python list slicing with non-negative bounds as drop/take.
-/

namespace CookMyFood

/-- RESULTS_PER_PAGE from recipe_app.py line 8. -/
def RESULTS_PER_PAGE : Int := 10

/-- A recipe summary as returned by the search endpoints:
id, title, optional readyInMinutes (spec section 3). -/
structure Recipe where
  id : Int
  title : String
  readyInMinutes : Option Int
deriving DecidableEq

/-- Outcome of one HTTP request: the parsed result list, or a request
exception message. -/
inductive FetchOutcome where
  | ok (rs : List Recipe) : FetchOutcome
  | err (msg : String) : FetchOutcome
deriving DecidableEq

/-- search_recipes (recipe_app.py lines 12-27) with the HTTP outcome
made explicit: on success it returns the result list, on a request
exception it shows an error message and returns the empty list.  The
returned pair is (result list, messages displayed). -/
def search_recipes (resp : FetchOutcome) : List Recipe × List String :=
  match resp with
  | .ok rs => (rs, [])
  | .err e => ([], ["Error searching for recipes: " ++ e])

/-- The current_page session field: screens of the app. -/
inductive Page where
  | search_input : Page
  | search_results : Page
  | recipe_details : Page
deriving DecidableEq

/-- The list_type session field: which list the results screen shows. -/
inductive ListType where
  | search : ListType
  | similar : ListType
deriving DecidableEq

/-- The Streamlit session state (recipe_app.py lines 66-81). -/
structure AppState where
  current_page : Page
  search_query : String
  selected_recipe_id : Option Int
  list_type : ListType
  last_viewed_recipe_id : Option Int
  current_offset : Int
  all_search_results : List Recipe
  last_api_fetch_was_full_page : Bool
deriving DecidableEq

/-- The initial session state (recipe_app.py lines 66-81). -/
def initState : AppState :=
  { current_page := .search_input
    search_query := ""
    selected_recipe_id := none
    list_type := .search
    last_viewed_recipe_id := none
    current_offset := 0
    all_search_results := []
    last_api_fetch_was_full_page := false }

/-- The ids of a list of recipe summaries, in order. -/
def idsOf (l : List Recipe) : List Int := l.map (fun r => r.id)

/-- Result of running the fetch block: the new state, whether a fetch
(API call) was performed, and the messages displayed. -/
structure FetchStepResult where
  state : AppState
  fetched : Bool
  messages : List String
deriving DecidableEq

/-- The fetch block of the search-results page (recipe_app.py lines
114-128), the ensure_page_loaded operation of the spec.  `api` stands
for the external search call; it is invoked at the session query and
the current offset.  If the offset is at least the number of loaded
results, a page is fetched, the full-page flag is set from the count
of returned items, and the returned summaries whose id is not already
present are appended in response order. -/
def ensure_page_loaded (p : Int) (api : String → Int → FetchOutcome)
    (s : AppState) : FetchStepResult :=
  if (s.all_search_results.length : Int) ≤ s.current_offset then
    let fr := search_recipes (api s.search_query s.current_offset)
    let new_recipes := fr.1
    let s1 := { s with
      last_api_fetch_was_full_page := (new_recipes.length : Int) == p }
    if new_recipes.isEmpty then
      if 0 < s1.current_offset then
        ⟨s1, true, fr.2 ++ ["No more recipes found for this search."]⟩
      else
        ⟨s1, true, fr.2⟩
    else
      let current_ids := idsOf s1.all_search_results
      let unique_new :=
        new_recipes.filter (fun nr => !(decide (nr.id ∈ current_ids)))
      ⟨{ s1 with
          all_search_results := s1.all_search_results ++ unique_new },
        true, fr.2⟩
  else
    ⟨s, false, []⟩

/-- Python list slicing l[a:b] for non-negative bounds (the only case
the app reaches): drop a elements, keep the next b - a. -/
def listSlice (l : List Recipe) (a b : Int) : List Recipe :=
  (l.drop a.toNat).take (b - a).toNat

/-- Result of the display-slice block: the (possibly clamped) state,
the batch of recipes shown, and the messages displayed. -/
structure RenderOut where
  state : AppState
  batch : List Recipe
  messages : List String
deriving DecidableEq

/-- The display-slice block (recipe_app.py lines 139-149), the
page_slice operation of the spec: show
recipes_to_display[offset : offset+p]; if that is empty while the
offset is positive, clamp the offset to max(0, len - p) and recompute
the slice. -/
def current_batch_to_show (p : Int) (recipes_to_display : List Recipe)
    (s : AppState) : RenderOut :=
  let start_index := s.current_offset
  let end_index := start_index + p
  let batch := listSlice recipes_to_display start_index end_index
  if batch.isEmpty ∧ 0 < start_index then
    let newOff := max 0 ((recipes_to_display.length : Int) - p)
    let s1 := { s with current_offset := newOff }
    ⟨s1, listSlice recipes_to_display newOff (newOff + p),
      ["You have reached the end of the recipes for this search."]⟩
  else
    ⟨s, batch, []⟩

/-- The Previous Recipes handler (recipe_app.py lines 170-173), the
retreat_page operation: permitted only when the offset is positive
(the button is only rendered then); moves the offset back one page,
clamped at zero. -/
def retreat_page (p : Int) (s : AppState) : AppState :=
  if 0 < s.current_offset then
    { s with current_offset := max 0 (s.current_offset - p) }
  else
    s

/-- The Load More Recipes handler (recipe_app.py lines 180-184), the
advance_page operation: permitted only when the last API fetch
returned a full page (the button is only rendered then); moves the
offset forward one page. -/
def advance_page (p : Int) (s : AppState) : AppState :=
  if s.last_api_fetch_was_full_page then
    { s with current_offset := s.current_offset + p }
  else
    s

/-- The Search Recipes handler (recipe_app.py lines 94-102), the reset
operation: stores the query, resets list type, offset, results and the
full-page flag, and moves to the results screen. -/
def submit_search (q : String) (s : AppState) : AppState :=
  { s with
    search_query := q
    list_type := .search
    current_offset := 0
    all_search_results := []
    last_api_fetch_was_full_page := false
    current_page := .search_results }

/-- The Start New Search handler (recipe_app.py lines 188-195 and
205-212): back to the input screen, clearing query, offset, results,
last viewed id and the full-page flag.  Note that the code does not
clear selected_recipe_id here. -/
def start_new_search (s : AppState) : AppState :=
  { s with
    current_page := .search_input
    search_query := ""
    current_offset := 0
    all_search_results := []
    last_viewed_recipe_id := none
    last_api_fetch_was_full_page := false }

/-- The View Details handler (recipe_app.py lines 159-162): selects
the clicked recipe and moves to the details screen. -/
def view_details (rid : Int) (s : AppState) : AppState :=
  { s with
    selected_recipe_id := some rid
    current_page := .recipe_details }

/-- The Back to Search Results handler on the details screen
(recipe_app.py lines 265-268): back to the results screen, clearing
the selection. -/
def back_from_details (s : AppState) : AppState :=
  { s with
    current_page := .search_results
    selected_recipe_id := none }

/-- The Find Similar Recipes handler (recipe_app.py lines 270-273):
moves to the results screen showing the similar list.  Note that the
code does not clear selected_recipe_id here. -/
def find_similar (s : AppState) : AppState :=
  { s with
    current_page := .search_results
    list_type := .similar }

/-- The Back to Recipe Details handler on the similar list
(recipe_app.py lines 197-200 and 214-217): back to the details screen,
resetting the list type to the primary search list. -/
def back_to_details_from_similar (s : AppState) : AppState :=
  { s with
    current_page := .recipe_details
    list_type := .search }

/-- One render pass of the results screen with the primary search list
(recipe_app.py lines 109-149): the fetch block followed by the display
slice over all_search_results. -/
def search_results_render (api : String → Int → FetchOutcome)
    (s : AppState) : RenderOut :=
  let f := ensure_page_loaded RESULTS_PER_PAGE api s
  let c := current_batch_to_show RESULTS_PER_PAGE
    f.state.all_search_results f.state
  ⟨c.state, c.batch, f.messages ++ c.messages⟩

/-- One render pass of the results screen with the similar list
(recipe_app.py lines 132-149 and 202-203): when the similar recipes
returned by the API form a non-empty list, they are fed to the same
display-slice block, which reads and may clamp the session offset of
the primary search; when the list is empty, the no-results branch
shows an info message and leaves the session untouched. -/
def similar_results_render (sims : List Recipe) (s : AppState) :
    RenderOut :=
  if sims.isEmpty then
    ⟨s, [],
      ["No similar recipes found for your query/selection. Try a different one."]⟩
  else
    current_batch_to_show RESULTS_PER_PAGE sims s

/-- One render pass of the details screen (recipe_app.py lines
220-280), with the detail fetch outcome abstracted to success or
failure.  With a selection and a successful fetch, the last viewed id
is recorded; on a failed fetch a warning is shown and the app returns
to the results screen; with no selection the app silently returns to
the results screen.  Returns the new state and the warning messages. -/
def recipe_details_render (fetchOk : Bool) (s : AppState) :
    AppState × List String :=
  match s.selected_recipe_id with
  | some i =>
    if fetchOk then
      ({ s with last_viewed_recipe_id := some i }, [])
    else
      ({ s with current_page := .search_results },
        ["Could not load recipe details."])
  | none =>
    ({ s with current_page := .search_results }, [])

/-- One observable transition of the application: a full Streamlit run
(render-phase state mutations) followed by at most one button handler,
with the guards under which the code renders that button.  The API
outcomes of the run are parameters of the step. -/
inductive Step : AppState → AppState → Prop where
  | submit (q : String) (s : AppState)
      (h1 : s.current_page = .search_input) (h2 : q ≠ "") :
      Step s (submit_search q s)
  | resultsRerun (api : String → Int → FetchOutcome) (s : AppState)
      (h1 : s.current_page = .search_results)
      (h2 : s.list_type = .search) :
      Step s (search_results_render api s).state
  | resultsView (api : String → Int → FetchOutcome) (s : AppState)
      (r : Recipe)
      (h1 : s.current_page = .search_results)
      (h2 : s.list_type = .search)
      (h3 : r ∈ (search_results_render api s).batch) :
      Step s (view_details r.id (search_results_render api s).state)
  | resultsPrev (api : String → Int → FetchOutcome) (s : AppState)
      (h1 : s.current_page = .search_results)
      (h2 : s.list_type = .search)
      (h3 : (search_results_render api s).state.all_search_results ≠ [])
      (h4 : 0 < (search_results_render api s).state.current_offset) :
      Step s (retreat_page RESULTS_PER_PAGE (search_results_render api s).state)
  | resultsLoadMore (api : String → Int → FetchOutcome) (s : AppState)
      (h1 : s.current_page = .search_results)
      (h2 : s.list_type = .search)
      (h3 : (search_results_render api s).state.all_search_results ≠ [])
      (h4 : (search_results_render api s).state.last_api_fetch_was_full_page = true) :
      Step s (advance_page RESULTS_PER_PAGE (search_results_render api s).state)
  | resultsNewSearch (api : String → Int → FetchOutcome) (s : AppState)
      (h1 : s.current_page = .search_results)
      (h2 : s.list_type = .search) :
      Step s (start_new_search (search_results_render api s).state)
  | similarRerun (sims : List Recipe) (s : AppState)
      (h1 : s.current_page = .search_results)
      (h2 : s.list_type = .similar) :
      Step s (similar_results_render sims s).state
  | similarView (sims : List Recipe) (s : AppState) (r : Recipe)
      (h1 : s.current_page = .search_results)
      (h2 : s.list_type = .similar)
      (h3 : r ∈ (similar_results_render sims s).batch) :
      Step s (view_details r.id (similar_results_render sims s).state)
  | similarBack (sims : List Recipe) (s : AppState)
      (h1 : s.current_page = .search_results)
      (h2 : s.list_type = .similar) :
      Step s (back_to_details_from_similar (similar_results_render sims s).state)
  | detailsRenderOk (s : AppState) (i : Int)
      (h1 : s.current_page = .recipe_details)
      (h2 : s.selected_recipe_id = some i) :
      Step s (recipe_details_render true s).1
  | detailsRenderFail (s : AppState) (i : Int)
      (h1 : s.current_page = .recipe_details)
      (h2 : s.selected_recipe_id = some i) :
      Step s (recipe_details_render false s).1
  | detailsRenderNull (b : Bool) (s : AppState)
      (h1 : s.current_page = .recipe_details)
      (h2 : s.selected_recipe_id = none) :
      Step s (recipe_details_render b s).1
  | detailsBack (s : AppState) (i : Int)
      (h1 : s.current_page = .recipe_details)
      (h2 : s.selected_recipe_id = some i) :
      Step s (back_from_details (recipe_details_render true s).1)
  | detailsFindSimilar (s : AppState) (i : Int)
      (h1 : s.current_page = .recipe_details)
      (h2 : s.selected_recipe_id = some i) :
      Step s (find_similar (recipe_details_render true s).1)

/-- States the application can reach from the initial session state. -/
inductive Reachable : AppState → Prop where
  | init : Reachable initState
  | step {s s2 : AppState} : Reachable s → Step s s2 → Reachable s2

/-- One operation on the paginator state of a search session: a fetch
(a rerun of the fetch block, with the API outcomes of that run), or a
page move. -/
inductive SessionOp where
  | fetch (api : String → Int → FetchOutcome) : SessionOp
  | advance : SessionOp
  | retreat : SessionOp

/-- Apply one session operation. -/
def applySessionOp (p : Int) (s : AppState) (op : SessionOp) : AppState :=
  match op with
  | .fetch api => (ensure_page_loaded p api s).state
  | .advance => advance_page p s
  | .retreat => retreat_page p s

/-- Apply a sequence of session operations, left to right. -/
def applySessionOps (p : Int) (s : AppState) (ops : List SessionOp) :
    AppState :=
  ops.foldl (applySessionOp p) s

/-- The ids carried by one fetch outcome (none on failure). -/
def batchIds : FetchOutcome → List Int
  | .ok rs => idsOf rs
  | .err _ => []

/-- An API whose every response respects the data model of the spec:
ids are unique within one returned result set. -/
def goodApi (api : String → Int → FetchOutcome) : Prop :=
  ∀ q off, (batchIds (api q off)).Nodup

/-- A session operation whose fetches, if any, come from an API
respecting the data model. -/
def opGood : SessionOp → Prop
  | .fetch api => goodApi api
  | .advance => True
  | .retreat => True

/-- A page-move operation: advance or retreat. -/
inductive PageOp where
  | advance : PageOp
  | retreat : PageOp

/-- Apply one page-move operation. -/
def applyPageOp (p : Int) (s : AppState) (op : PageOp) : AppState :=
  match op with
  | .advance => advance_page p s
  | .retreat => retreat_page p s

/-- Apply a sequence of page moves, left to right. -/
def applyPageOps (p : Int) (s : AppState) (ops : List PageOp) : AppState :=
  ops.foldl (applyPageOp p) s

/-- A concrete recipe summary used in scenario runs. -/
def rcp (i : Int) : Recipe := ⟨i, "R", none⟩

/-- Ten concrete recipes: a full first page. -/
def batchA : List Recipe :=
  [rcp 1, rcp 2, rcp 3, rcp 4, rcp 5, rcp 6, rcp 7, rcp 8, rcp 9, rcp 10]

/-- Four concrete recipes: a final, short page. -/
def batchB : List Recipe := [rcp 11, rcp 12, rcp 13, rcp 14]

/-- An API that always answers with the full first page. -/
def apiA : String → Int → FetchOutcome := fun _ _ => .ok batchA

/-- An API that always answers with the short page. -/
def apiB : String → Int → FetchOutcome := fun _ _ => .ok batchB

/-- The fetch block touches only the result list and the full-page
flag: every other session field is unchanged. -/
theorem ensure_page_loaded_frame (p : Int)
    (api : String → Int → FetchOutcome) (s : AppState) :
    (ensure_page_loaded p api s).state.current_page = s.current_page ∧
    (ensure_page_loaded p api s).state.search_query = s.search_query ∧
    (ensure_page_loaded p api s).state.selected_recipe_id =
      s.selected_recipe_id ∧
    (ensure_page_loaded p api s).state.list_type = s.list_type ∧
    (ensure_page_loaded p api s).state.last_viewed_recipe_id =
      s.last_viewed_recipe_id ∧
    (ensure_page_loaded p api s).state.current_offset = s.current_offset := by
  unfold ensure_page_loaded
  dsimp only
  split_ifs <;> simp

/-- The display-slice block touches only the offset: every other
session field is unchanged. -/
theorem current_batch_to_show_frame (p : Int) (l : List Recipe)
    (s : AppState) :
    (current_batch_to_show p l s).state.current_page = s.current_page ∧
    (current_batch_to_show p l s).state.search_query = s.search_query ∧
    (current_batch_to_show p l s).state.selected_recipe_id =
      s.selected_recipe_id ∧
    (current_batch_to_show p l s).state.list_type = s.list_type ∧
    (current_batch_to_show p l s).state.last_viewed_recipe_id =
      s.last_viewed_recipe_id ∧
    (current_batch_to_show p l s).state.all_search_results =
      s.all_search_results ∧
    (current_batch_to_show p l s).state.last_api_fetch_was_full_page =
      s.last_api_fetch_was_full_page := by
  unfold current_batch_to_show
  dsimp only
  split_ifs <;> simp

/-- A results-screen render pass touches only the result list, the
full-page flag and the offset. -/
theorem search_results_render_frame (api : String → Int → FetchOutcome)
    (s : AppState) :
    (search_results_render api s).state.current_page = s.current_page ∧
    (search_results_render api s).state.selected_recipe_id =
      s.selected_recipe_id ∧
    (search_results_render api s).state.list_type = s.list_type := by
  unfold search_results_render
  refine ⟨?_, ?_, ?_⟩
  · rw [(current_batch_to_show_frame _ _ _).1,
      (ensure_page_loaded_frame _ _ _).1]
  · rw [(current_batch_to_show_frame _ _ _).2.2.1,
      (ensure_page_loaded_frame _ _ _).2.2.1]
  · rw [(current_batch_to_show_frame _ _ _).2.2.2.1,
      (ensure_page_loaded_frame _ _ _).2.2.2.1]

/-- A similar-list render pass touches only the offset: the screen,
selection, list type and stored results are unchanged. -/
theorem similar_results_render_frame (sims : List Recipe) (s : AppState) :
    (similar_results_render sims s).state.current_page = s.current_page ∧
    (similar_results_render sims s).state.selected_recipe_id =
      s.selected_recipe_id ∧
    (similar_results_render sims s).state.list_type = s.list_type ∧
    (similar_results_render sims s).state.all_search_results =
      s.all_search_results := by
  unfold similar_results_render
  split_ifs
  · exact ⟨rfl, rfl, rfl, rfl⟩
  · exact ⟨(current_batch_to_show_frame _ _ _).1,
      (current_batch_to_show_frame _ _ _).2.2.1,
      (current_batch_to_show_frame _ _ _).2.2.2.1,
      (current_batch_to_show_frame _ _ _).2.2.2.2.2.1⟩

/-- The page-move handlers touch only the offset. -/
theorem page_move_frame (p : Int) (s : AppState) :
    (advance_page p s).current_page = s.current_page ∧
    (advance_page p s).selected_recipe_id = s.selected_recipe_id ∧
    (advance_page p s).all_search_results = s.all_search_results ∧
    (retreat_page p s).current_page = s.current_page ∧
    (retreat_page p s).selected_recipe_id = s.selected_recipe_id ∧
    (retreat_page p s).all_search_results = s.all_search_results := by
  unfold advance_page retreat_page
  split_ifs <;> simp

/-- Claim C1: whenever the offset is at least the length of the loaded
results, the fetch block performs a search at the session query and
the current offset, appends exactly the returned summaries whose id is
not already present, in response order, and sets the full-page flag to
true exactly when the returned count equals the page size. -/
theorem C1_ensure_page_loaded_fetch (p : Int)
    (api : String → Int → FetchOutcome) (s : AppState)
    (h : (s.all_search_results.length : Int) ≤ s.current_offset) :
    (ensure_page_loaded p api s).fetched = true ∧
    (ensure_page_loaded p api s).state.all_search_results =
      s.all_search_results ++
        (search_recipes (api s.search_query s.current_offset)).1.filter
          (fun nr => !(decide (nr.id ∈ idsOf s.all_search_results))) ∧
    (ensure_page_loaded p api s).state.last_api_fetch_was_full_page =
      (((search_recipes (api s.search_query s.current_offset)).1.length :
        Int) == p) := by
  unfold ensure_page_loaded
  dsimp only
  rw [if_pos h]
  by_cases he :
      (search_recipes (api s.search_query s.current_offset)).1 = []
  · rw [he]
    split_ifs <;> simp
  · simp [List.isEmpty_iff, he]

/-- Claim C6: when the data for the current offset is already present,
the fetch block performs no fetch and leaves the whole session state,
and the displayed messages, unchanged. -/
theorem C6_ensure_page_loaded_idempotent (p : Int)
    (api : String → Int → FetchOutcome) (s : AppState)
    (h : s.current_offset < (s.all_search_results.length : Int)) :
    ensure_page_loaded p api s = ⟨s, false, []⟩ := by
  unfold ensure_page_loaded
  rw [if_neg (not_le.mpr h)]

/-- Claim C7: a failing API fetch during the fetch block leaves the
result list and the offset unchanged, and, when a fetch was actually
attempted, is surfaced as a displayed message rather than an
exception (the embedding is a total function; the code catches the
request exception inside search_recipes). -/
theorem C7_fetch_failure_soft (p : Int)
    (api : String → Int → FetchOutcome) (s : AppState) (e : String)
    (hapi : api s.search_query s.current_offset = FetchOutcome.err e) :
    (ensure_page_loaded p api s).state.all_search_results =
      s.all_search_results ∧
    (ensure_page_loaded p api s).state.current_offset =
      s.current_offset ∧
    ((s.all_search_results.length : Int) ≤ s.current_offset →
      (ensure_page_loaded p api s).messages ≠ []) := by
  unfold ensure_page_loaded
  dsimp only
  rw [hapi]
  by_cases h : (s.all_search_results.length : Int) ≤ s.current_offset
  · rw [if_pos h]
    unfold search_recipes
    dsimp only
    split_ifs <;> simp
  · rw [if_neg h]
    exact ⟨rfl, rfl, fun hc => absurd hc h⟩

/-- Appending only those new summaries whose id is not already present
keeps the id list duplicate-free, provided the new batch itself has
duplicate-free ids. -/
theorem nodup_ids_append_unique (cur new : List Recipe)
    (h1 : (idsOf cur).Nodup) (h2 : (idsOf new).Nodup) :
    (idsOf (cur ++
      new.filter (fun nr => !(decide (nr.id ∈ idsOf cur))))).Nodup := by
  unfold idsOf
  rw [List.map_append]
  refine List.Nodup.append h1 ?_ ?_
  · exact List.Nodup.sublist (List.Sublist.map _ (List.filter_sublist _)) h2
  · intro a ha hb
    rcases List.mem_map.mp hb with ⟨r, hr, hid⟩
    rcases List.mem_filter.mp hr with ⟨_, hpred⟩
    rw [Bool.not_eq_true', decide_eq_false_iff_not] at hpred
    exact hpred (hid ▸ ha)

/-- One fetch-block run preserves duplicate-freeness of the stored
ids, for any API whose responses respect the data model. -/
theorem nodup_ids_ensure (p : Int) (api : String → Int → FetchOutcome)
    (s : AppState) (h1 : (idsOf s.all_search_results).Nodup)
    (h2 : goodApi api) :
    (idsOf (ensure_page_loaded p api s).state.all_search_results).Nodup := by
  unfold ensure_page_loaded
  dsimp only
  split_ifs with hg he
  · exact h1
  · exact h1
  · have hb := h2 s.search_query s.current_offset
    cases hx : api s.search_query s.current_offset with
    | ok rs =>
      rw [hx] at hb
      unfold batchIds at hb
      simp only [hx, search_recipes]
      exact nodup_ids_append_unique _ _ h1 hb
    | err e =>
      simp only [hx, search_recipes] at he
      exact absurd List.isEmpty_nil he
  · exact h1

/-- A page move never touches the stored results. -/
theorem nodup_ids_page_move (p : Int) (s : AppState)
    (h1 : (idsOf s.all_search_results).Nodup) :
    (idsOf (advance_page p s).all_search_results).Nodup ∧
    (idsOf (retreat_page p s).all_search_results).Nodup := by
  rw [(page_move_frame p s).2.2.1, (page_move_frame p s).2.2.2.2.2]
  exact ⟨h1, h1⟩

/-- Claim C2: over any sequence of session operations - fetches at
whatever offsets the session has reached, including repeated fetches
at already covered offsets, with page moves in between - the ids in
the result list stay pairwise distinct, provided they start distinct
and every API response respects the data model (ids unique within one
returned result set, spec section 3). -/
theorem C2_no_duplicate_ids (p : Int) (ops : List SessionOp)
    (s : AppState) (h1 : (idsOf s.all_search_results).Nodup)
    (h2 : ∀ op ∈ ops, opGood op) :
    (idsOf (applySessionOps p s ops).all_search_results).Nodup := by
  induction ops generalizing s with
  | nil => exact h1
  | cons op rest ih =>
    rw [applySessionOps, List.foldl_cons]
    refine ih (applySessionOp p s op) ?_ (fun o ho => h2 o (List.mem_cons_of_mem _ ho))
    have hop := h2 op (List.mem_cons_self op rest)
    cases op with
    | fetch api => exact nodup_ids_ensure p api s h1 hop
    | advance => exact (nodup_ids_page_move p s h1).1
    | retreat => exact (nodup_ids_page_move p s h1).2

/-- Each page move keeps the offset non-negative and divisible by the
page size. -/
theorem page_move_offset_invariant (p : Int) (hp : 0 ≤ p)
    (s : AppState) (op : PageOp)
    (h : 0 ≤ s.current_offset ∧ p ∣ s.current_offset) :
    0 ≤ (applyPageOp p s op).current_offset ∧
    p ∣ (applyPageOp p s op).current_offset := by
  cases op with
  | advance =>
    unfold applyPageOp advance_page
    split_ifs <;> dsimp only
    · exact ⟨add_nonneg h.1 hp, (h.2).add (dvd_refl p)⟩
    · exact h
  | retreat =>
    unfold applyPageOp retreat_page
    split_ifs <;> dsimp only
    · refine ⟨le_max_left 0 _, ?_⟩
      rcases max_choice 0 (s.current_offset - p) with hm | hm <;> rw [hm]
      · exact dvd_zero p
      · exact (h.2).sub (dvd_refl p)
    · exact h

/-- Claim C3: starting from offset 0, any guarded sequence of page
moves keeps the offset a non-negative multiple of the page size, and a
retreat at offset 0 is a no-op. -/
theorem C3_offset_nonneg_multiple (p : Int) (hp : 0 ≤ p)
    (ops : List PageOp) (s : AppState) (h0 : s.current_offset = 0) :
    (0 ≤ (applyPageOps p s ops).current_offset ∧
      p ∣ (applyPageOps p s ops).current_offset) ∧
    (∀ s2 : AppState, s2.current_offset = 0 → retreat_page p s2 = s2) := by
  constructor
  · have hinv : 0 ≤ s.current_offset ∧ p ∣ s.current_offset := by
      rw [h0]; exact ⟨le_refl 0, dvd_zero p⟩
    clear h0
    induction ops generalizing s with
    | nil => exact hinv
    | cons op rest ih =>
      rw [applyPageOps, List.foldl_cons]
      exact ih (applyPageOp p s op) (page_move_offset_invariant p hp s op hinv)
  · intro s2 h2
    simp [retreat_page, h2]

/-- The pasta scenario, step 0: a fresh search for pasta. -/
def pastaSession0 : AppState := submit_search "pasta" initState

/-- The pasta scenario, step 1: the API returns a full page of 10 at
offset 0. -/
def pastaSession1 : AppState :=
  (ensure_page_loaded 10 apiA pastaSession0).state

/-- The pasta scenario, step 2: the user advances one page. -/
def pastaSession2 : AppState := advance_page 10 pastaSession1

/-- The pasta scenario, step 3: the API returns 4 items at offset 10. -/
def pastaSession3 : AppState :=
  (ensure_page_loaded 10 apiB pastaSession2).state

/-- Claim C4: the Load More handler fires only when the last fetch
returned a full page, and then moves the offset forward by exactly one
page; in the pasta scenario (10 items at offset 0, then 4 at offset
10) the flag ends false, a further advance is a no-op, and 14 results
are loaded. -/
theorem C4_advance_guard_and_scenario :
    (∀ (p : Int) (s : AppState), s.last_api_fetch_was_full_page = true →
      advance_page p s =
        { s with current_offset := s.current_offset + p }) ∧
    (∀ (p : Int) (s : AppState), s.last_api_fetch_was_full_page = false →
      advance_page p s = s) ∧
    (pastaSession1.last_api_fetch_was_full_page = true ∧
      pastaSession2.current_offset = 10 ∧
      pastaSession3.last_api_fetch_was_full_page = false ∧
      advance_page 10 pastaSession3 = pastaSession3 ∧
      pastaSession3.all_search_results.length = 14) := by
  refine ⟨fun p s h => ?_, fun p s h => ?_, by decide⟩
  · simp [advance_page, h]
  · simp [advance_page, h]

/-- Slicing one page starting at the clamped offset
max(0, len - p) of a non-empty list with positive page size always
yields a non-empty batch. -/
theorem listSlice_clamp_ne_nil (l : List Recipe) (p : Int)
    (hl : l ≠ []) (hp : 0 < p) :
    listSlice l (max 0 ((l.length : Int) - p))
      (max 0 ((l.length : Int) - p) + p) ≠ [] := by
  have hL : 0 < l.length := List.length_pos.mpr hl
  unfold listSlice
  intro hcontra
  have hlen := congrArg List.length hcontra
  rw [List.length_take, List.length_drop, List.length_nil] at hlen
  rcases max_choice 0 ((l.length : Int) - p) with hm | hm <;> rw [hm] at hlen <;>
    omega

/-- When the direct slice is non-empty, or the offset is not positive,
the display-slice block changes nothing and shows the direct slice. -/
theorem current_batch_no_clamp (p : Int) (l : List Recipe)
    (s : AppState)
    (h : ¬(listSlice l s.current_offset (s.current_offset + p) = [] ∧
      0 < s.current_offset)) :
    current_batch_to_show p l s =
      ⟨s, listSlice l s.current_offset (s.current_offset + p), []⟩ := by
  unfold current_batch_to_show
  dsimp only
  rw [if_neg]
  simpa [List.isEmpty_iff] using h

/-- When the direct slice is empty and the offset is positive, the
display-slice block clamps the offset to max(0, len - p), stores it in
the session, and shows the slice recomputed there. -/
theorem current_batch_clamp (p : Int) (l : List Recipe) (s : AppState)
    (h1 : listSlice l s.current_offset (s.current_offset + p) = [])
    (h2 : 0 < s.current_offset) :
    current_batch_to_show p l s =
      ⟨{ s with current_offset := max 0 ((l.length : Int) - p) },
        listSlice l (max 0 ((l.length : Int) - p))
          (max 0 ((l.length : Int) - p) + p),
        ["You have reached the end of the recipes for this search."]⟩ := by
  unfold current_batch_to_show
  dsimp only
  rw [if_pos]
  simpa [List.isEmpty_iff] using ⟨h1, h2⟩

/-- Claim C5: the display-slice block returns
results[offset : offset+p]; if that slice is empty while the offset is
positive it clamps the offset to max(0, len - p) and returns the slice
recomputed there; hence with a non-empty loaded list, a positive page
size and a non-negative offset the shown batch is never empty - a
stale offset self-heals to the last loaded page. -/
theorem C5_page_slice_clamps (p : Int) (l : List Recipe) (s : AppState) :
    (¬(listSlice l s.current_offset (s.current_offset + p) = [] ∧
        0 < s.current_offset) →
      current_batch_to_show p l s =
        ⟨s, listSlice l s.current_offset (s.current_offset + p), []⟩) ∧
    (listSlice l s.current_offset (s.current_offset + p) = [] →
      0 < s.current_offset →
      (current_batch_to_show p l s).state =
          { s with current_offset := max 0 ((l.length : Int) - p) } ∧
        (current_batch_to_show p l s).batch =
          listSlice l (max 0 ((l.length : Int) - p))
            (max 0 ((l.length : Int) - p) + p)) ∧
    (l ≠ [] → 0 < p → 0 ≤ s.current_offset →
      (current_batch_to_show p l s).batch ≠ []) := by
  refine ⟨current_batch_no_clamp p l s,
    fun h1 h2 => by rw [current_batch_clamp p l s h1 h2]; exact ⟨rfl, rfl⟩,
    fun hl hp hoff => ?_⟩
  by_cases h : listSlice l s.current_offset (s.current_offset + p) = [] ∧
      0 < s.current_offset
  · rw [current_batch_clamp p l s h.1 h.2]
    exact listSlice_clamp_ne_nil l p hl hp
  · rw [current_batch_no_clamp p l s h]
    rcases not_and_or.mp h with hne | hoff2
    · exact hne
    · have h0 : s.current_offset = 0 := le_antisymm (not_lt.mp hoff2) hoff
      rw [h0]
      have hL : 0 < l.length := List.length_pos.mpr hl
      unfold listSlice
      intro hcontra
      have hlen := congrArg List.length hcontra
      rw [List.length_take, List.length_drop, List.length_nil] at hlen
      omega

/-- A session that has loaded a full first page, advanced to offset
10, and is now viewing the similar list. -/
def similarDemoState : AppState :=
  { current_page := .search_results
    search_query := "pasta"
    selected_recipe_id := some 1
    list_type := .similar
    last_viewed_recipe_id := some 1
    current_offset := 10
    all_search_results := batchA
    last_api_fetch_was_full_page := true }

/-- Claim C10 counterexample: with an empty similar list (a reachable
outcome: get_similar_recipes returns an empty list on failure or no
matches) at primary offset 10, the no-results branch of the program
leaves the session, offset included, untouched, so the clamping
conjunct of the claim - that an empty displayed slice at positive
offset always mutates the primary offset - is false. -/
theorem C10_counterexample :
    ((similar_results_render [] similarDemoState).state =
        similarDemoState ∧
      similarDemoState.current_offset = 10 ∧
      listSlice [] similarDemoState.current_offset
        (similarDemoState.current_offset + RESULTS_PER_PAGE) = []) ∧
    ¬(∀ (sims : List Recipe) (s : AppState),
      listSlice sims s.current_offset
        (s.current_offset + RESULTS_PER_PAGE) = [] →
      0 < s.current_offset →
      (similar_results_render sims s).state.current_offset =
        max 0 ((sims.length : Int) - RESULTS_PER_PAGE)) :=
  ⟨⟨by decide, by decide, by decide⟩,
    fun h =>
      absurd (h [] similarDemoState (by decide) (by decide)) (by decide)⟩

/-- Claim C10 amended: the results screen applies the primary search
offset window to whichever non-empty list it displays.  With a
non-empty similar list, the shown slice is
similar_results[offset : offset+10] at the primary offset, and when
that slice is empty with a positive offset the clamping branch
overwrites the primary session offset - demonstrated concretely:
viewing a 1-item similar list at offset 10 resets the primary offset
to 0; with an empty similar list the no-results branch leaves the
session untouched. -/
theorem C10_similar_render_touches_primary_offset :
    (∀ (sims : List Recipe) (s : AppState), sims ≠ [] →
      ¬(listSlice sims s.current_offset
          (s.current_offset + RESULTS_PER_PAGE) = [] ∧
        0 < s.current_offset) →
      (similar_results_render sims s).state = s ∧
      (similar_results_render sims s).batch =
        listSlice sims s.current_offset
          (s.current_offset + RESULTS_PER_PAGE)) ∧
    (∀ (sims : List Recipe) (s : AppState), sims ≠ [] →
      listSlice sims s.current_offset
        (s.current_offset + RESULTS_PER_PAGE) = [] →
      0 < s.current_offset →
      (similar_results_render sims s).state =
        { s with
          current_offset := max 0 ((sims.length : Int) - RESULTS_PER_PAGE) } ∧
      (similar_results_render sims s).state.all_search_results =
        s.all_search_results) ∧
    (∀ s : AppState, (similar_results_render [] s).state = s) ∧
    (similarDemoState.current_offset = 10 ∧
      (similar_results_render [rcp 99] similarDemoState).state.current_offset
        = 0) := by
  refine ⟨fun sims s hne h => ?_, fun sims s hne h1 h2 => ?_,
    fun s => rfl, by decide⟩
  · rw [similar_results_render,
      if_neg (by simpa [List.isEmpty_iff] using hne),
      current_batch_no_clamp _ _ _ h]
    exact ⟨rfl, rfl⟩
  · rw [similar_results_render,
      if_neg (by simpa [List.isEmpty_iff] using hne),
      current_batch_clamp _ _ _ h1 h2]
    exact ⟨rfl, rfl⟩

/-- Navigation trace, step 1: the user searches for pasta. -/
def navS1 : AppState := submit_search "pasta" initState

/-- Navigation trace, step 2: the first page loads and the user opens
the details of recipe 1. -/
def navS2 : AppState :=
  view_details (rcp 1).id (search_results_render apiA navS1).state

/-- Navigation trace, step 3: the details load and the user asks for
similar recipes. -/
def navS3 : AppState := find_similar (recipe_details_render true navS2).1

/-- Navigation trace, step 4: the user opens the details of similar
recipe 20. -/
def navS4 : AppState :=
  view_details (rcp 20).id (similar_results_render [rcp 20] navS3).state

/-- Navigation trace, step 5: from those details the user goes back to
the results screen, which still shows the similar list. -/
def navS5 : AppState := back_from_details (recipe_details_render true navS4).1

/-- Navigation trace, step 6: the user goes back to recipe details
from the similar list - with no recipe selected any more. -/
def navS6 : AppState :=
  back_to_details_from_similar (similar_results_render [] navS5).state

/-- Step 1 of the navigation trace is reachable. -/
theorem navS1_reachable : Reachable navS1 :=
  Reachable.step Reachable.init
    (Step.submit "pasta" initState rfl (by decide))

/-- Step 2 of the navigation trace is reachable. -/
theorem navS2_reachable : Reachable navS2 :=
  Reachable.step navS1_reachable
    (Step.resultsView apiA navS1 (rcp 1) rfl rfl (by decide))

/-- Step 3 of the navigation trace is reachable. -/
theorem navS3_reachable : Reachable navS3 :=
  Reachable.step navS2_reachable
    (Step.detailsFindSimilar navS2 1 (by decide) (by decide))

/-- Step 4 of the navigation trace is reachable. -/
theorem navS4_reachable : Reachable navS4 :=
  Reachable.step navS3_reachable
    (Step.similarView [rcp 20] navS3 (rcp 20) (by decide) (by decide)
      (by decide))

/-- Step 5 of the navigation trace is reachable. -/
theorem navS5_reachable : Reachable navS5 :=
  Reachable.step navS4_reachable
    (Step.detailsBack navS4 20 (by decide) (by decide))

/-- Step 6 of the navigation trace is reachable: the details screen is
reached with no selected recipe. -/
theorem navS6_reachable : Reachable navS6 :=
  Reachable.step navS5_reachable
    (Step.similarBack [] navS5 (by decide) (by decide))

/-- Claim C8 counterexample: after the find_similar transition the app
is on the results screen while recipe 1 is still selected, so a
non-null selected id is not confined to the details screen. -/
theorem C8_counterexample :
    (Reachable navS3 ∧ navS3.current_page = Page.search_results ∧
      navS3.selected_recipe_id = some 1) ∧
    ¬(∀ s : AppState, Reachable s → s.selected_recipe_id ≠ none →
        s.current_page = Page.recipe_details) :=
  ⟨⟨navS3_reachable, by decide, by decide⟩,
    fun h => absurd (h navS3 navS3_reachable (by decide)) (by decide)⟩

/-- Claim C8 amended: the find_similar transition and the
failed-detail-fetch recovery move to the results screen while leaving
selected_recipe_id set; only the back-to-search-results transition
from the details screen clears it, so a non-null selected id can
persist on the results screen. -/
theorem C8_amended_selected_persists (s : AppState) (i : Int)
    (h : s.selected_recipe_id = some i) :
    ((find_similar (recipe_details_render true s).1).current_page =
        Page.search_results ∧
      (find_similar (recipe_details_render true s).1).selected_recipe_id =
        some i) ∧
    ((recipe_details_render false s).1.current_page =
        Page.search_results ∧
      (recipe_details_render false s).1.selected_recipe_id = some i) ∧
    (back_from_details
        (recipe_details_render true s).1).selected_recipe_id = none := by
  simp [recipe_details_render, h, find_similar, back_from_details]

/-- Every state one application step can produce satisfies: on the
details screen with no selection, the list type is the primary search
list (the only way into that state resets the list type). -/
theorem step_details_null_primary {s s2 : AppState} (hstep : Step s s2)
    (hp : s2.current_page = Page.recipe_details)
    (hsel : s2.selected_recipe_id = none) :
    s2.list_type = ListType.search := by
  cases hstep with
  | submit q s h1 h2 => simp [submit_search] at hp
  | resultsRerun api s h1 h2 =>
    rw [(search_results_render_frame api s).1, h1] at hp
    cases hp
  | resultsView api s r h1 h2 h3 => simp [view_details] at hsel
  | resultsPrev api s h1 h2 h3 h4 =>
    rw [(page_move_frame RESULTS_PER_PAGE _).2.2.2.1,
      (search_results_render_frame api s).1, h1] at hp
    cases hp
  | resultsLoadMore api s h1 h2 h3 h4 =>
    rw [(page_move_frame RESULTS_PER_PAGE _).1,
      (search_results_render_frame api s).1, h1] at hp
    cases hp
  | resultsNewSearch api s h1 h2 => simp [start_new_search] at hp
  | similarRerun sims s h1 h2 =>
    rw [(similar_results_render_frame sims s).1, h1] at hp
    cases hp
  | similarView sims s r h1 h2 h3 => simp [view_details] at hsel
  | similarBack sims s h1 h2 => simp [back_to_details_from_similar]
  | detailsRenderOk s i h1 h2 => simp [recipe_details_render, h2] at hsel
  | detailsRenderFail s i h1 h2 => simp [recipe_details_render, h2] at hp
  | detailsRenderNull b s h1 h2 => simp [recipe_details_render, h2] at hp
  | detailsBack s i h1 h2 => simp [back_from_details] at hp
  | detailsFindSimilar s i h1 h2 =>
    simp [find_similar, recipe_details_render, h2] at hp

/-- In every reachable state, the details screen with no selection
implies the list type is the primary search list. -/
theorem reachable_details_null_primary {s : AppState}
    (hr : Reachable s) (hp : s.current_page = Page.recipe_details)
    (hsel : s.selected_recipe_id = none) :
    s.list_type = ListType.search := by
  cases hr with
  | init => simp [initState] at hp
  | step hr2 hstep => exact step_details_null_primary hstep hp hsel

/-- Claim C9: in a reachable state on the details screen with no
selection, the list type is the primary one, the render performs the
silent recovery to the results screen - the primary list - with no
message displayed, and no other transition is possible from that
state. -/
theorem C9_null_details_recovery (s : AppState) (hr : Reachable s)
    (hp : s.current_page = Page.recipe_details)
    (hsel : s.selected_recipe_id = none) :
    s.list_type = ListType.search ∧
    (∀ b : Bool,
      (recipe_details_render b s).1 =
        { s with current_page := Page.search_results } ∧
      (recipe_details_render b s).2 = []) ∧
    (∀ s2 : AppState, Step s s2 →
      s2 = { s with current_page := Page.search_results }) := by
  refine ⟨reachable_details_null_primary hr hp hsel, fun b => ?_,
    fun s2 hstep => ?_⟩
  · simp [recipe_details_render, hsel]
  · cases hstep with
    | submit q s h1 h2 => rw [hp] at h1; cases h1
    | resultsRerun api s h1 h2 => rw [hp] at h1; cases h1
    | resultsView api s r h1 h2 h3 => rw [hp] at h1; cases h1
    | resultsPrev api s h1 h2 h3 h4 => rw [hp] at h1; cases h1
    | resultsLoadMore api s h1 h2 h3 h4 => rw [hp] at h1; cases h1
    | resultsNewSearch api s h1 h2 => rw [hp] at h1; cases h1
    | similarRerun sims s h1 h2 => rw [hp] at h1; cases h1
    | similarView sims s r h1 h2 h3 => rw [hp] at h1; cases h1
    | similarBack sims s h1 h2 => rw [hp] at h1; cases h1
    | detailsRenderOk s i h1 h2 => rw [hsel] at h2; cases h2
    | detailsRenderFail s i h1 h2 => rw [hsel] at h2; cases h2
    | detailsRenderNull b s h1 h2 => simp [recipe_details_render, hsel]
    | detailsBack s i h1 h2 => rw [hsel] at h2; cases h2
    | detailsFindSimilar s i h1 h2 => rw [hsel] at h2; cases h2

/-- An API that always fails with a network error. -/
def apiErr : String → Int → FetchOutcome :=
  fun _ _ => .err "network unreachable"

/-- Claim C1 witness: the fetch contract evaluated on the fresh pasta
session receiving the full first page. -/
theorem C1_witness :
    (ensure_page_loaded 10 apiA pastaSession0).fetched = true ∧
    (ensure_page_loaded 10 apiA pastaSession0).state.all_search_results =
      pastaSession0.all_search_results ++
        (search_recipes (apiA pastaSession0.search_query
          pastaSession0.current_offset)).1.filter
          (fun nr =>
            !(decide (nr.id ∈ idsOf pastaSession0.all_search_results))) :=
  ⟨(C1_ensure_page_loaded_fetch 10 apiA pastaSession0 (by decide)).1,
    (C1_ensure_page_loaded_fetch 10 apiA pastaSession0 (by decide)).2.1⟩

/-- apiA respects the data model: ids unique within a response. -/
theorem goodApiA : goodApi apiA := fun _ _ => by
  show (idsOf batchA).Nodup
  decide

/-- apiB respects the data model: ids unique within a response. -/
theorem goodApiB : goodApi apiB := fun _ _ => by
  show (idsOf batchB).Nodup
  decide

/-- Claim C2 witness: a fetch, a page move, and two overlapping
re-fetches of the short page leave the stored ids duplicate-free. -/
theorem C2_witness :
    (idsOf (applySessionOps 10 pastaSession0
      [SessionOp.fetch apiA, SessionOp.advance, SessionOp.fetch apiB,
        SessionOp.fetch apiB]).all_search_results).Nodup := by
  refine C2_no_duplicate_ids 10 _ pastaSession0 (by decide) ?_
  intro op hop
  rcases List.mem_cons.mp hop with h | hop
  · rw [h]; exact goodApiA
  rcases List.mem_cons.mp hop with h | hop
  · rw [h]; exact trivial
  rcases List.mem_cons.mp hop with h | hop
  · rw [h]; exact goodApiB
  rcases List.mem_cons.mp hop with h | hop
  · rw [h]; exact goodApiB
  · cases hop

/-- Claim C3 witness: a retreat, advance and retreat from offset 0
keep the offset a non-negative multiple of 10, and a retreat on the
fresh session is a no-op. -/
theorem C3_witness :
    (0 ≤ (applyPageOps 10 initState
        [PageOp.retreat, PageOp.advance, PageOp.retreat]).current_offset ∧
      (10 : Int) ∣ (applyPageOps 10 initState
        [PageOp.retreat, PageOp.advance, PageOp.retreat]).current_offset) ∧
    retreat_page 10 initState = initState := by
  have h := C3_offset_nonneg_multiple 10 (by decide)
    [PageOp.retreat, PageOp.advance, PageOp.retreat] initState rfl
  exact ⟨h.1, h.2 initState rfl⟩

/-- Claim C4 witness: the advance guard evaluated on the two pasta
scenario sessions. -/
theorem C4_witness :
    advance_page 10 pastaSession1 =
      { pastaSession1 with
        current_offset := pastaSession1.current_offset + 10 } ∧
    advance_page 10 pastaSession3 = pastaSession3 :=
  ⟨C4_advance_guard_and_scenario.1 10 pastaSession1 (by decide),
    C4_advance_guard_and_scenario.2.1 10 pastaSession3 (by decide)⟩

/-- Claim C5 witness: the page shown on the loaded pasta session is
never empty. -/
theorem C5_witness :
    (current_batch_to_show 10 batchA pastaSession1).batch ≠ [] :=
  (C5_page_slice_clamps 10 batchA pastaSession1).2.2 (by decide)
    (by decide) (by decide)

/-- Claim C6 witness: a repeated run at the loaded offset leaves the
pasta session untouched and performs no fetch. -/
theorem C6_witness :
    ensure_page_loaded 10 apiB pastaSession1 = ⟨pastaSession1, false, []⟩ :=
  C6_ensure_page_loaded_idempotent 10 apiB pastaSession1 (by decide)

/-- Claim C7 witness: a failing fetch at offset 10 of the pasta
session leaves results and offset unchanged and displays a message. -/
theorem C7_witness :
    (ensure_page_loaded 10 apiErr pastaSession2).state.all_search_results =
      pastaSession2.all_search_results ∧
    (ensure_page_loaded 10 apiErr pastaSession2).state.current_offset =
      pastaSession2.current_offset ∧
    (ensure_page_loaded 10 apiErr pastaSession2).messages ≠ [] := by
  have h := C7_fetch_failure_soft 10 apiErr pastaSession2
    "network unreachable" rfl
  exact ⟨h.1, h.2.1, h.2.2 (by decide)⟩

/-- Claim C8 amended witness: from the concrete details state of the
navigation trace, find_similar keeps recipe 1 selected on the results
screen. -/
theorem C8_amended_witness :
    (find_similar (recipe_details_render true navS2).1).selected_recipe_id
        = some 1 ∧
    (find_similar (recipe_details_render true navS2).1).current_page =
      Page.search_results ∧
    (back_from_details
        (recipe_details_render true navS2).1).selected_recipe_id = none :=
  ⟨(C8_amended_selected_persists navS2 1 (by decide)).1.2,
    (C8_amended_selected_persists navS2 1 (by decide)).1.1,
    (C8_amended_selected_persists navS2 1 (by decide)).2.2⟩

/-- Claim C9 witness: the reachable details-with-no-selection state of
the navigation trace recovers to the primary results screen with no
message. -/
theorem C9_witness :
    navS6.list_type = ListType.search ∧
    (recipe_details_render true navS6).1 =
      { navS6 with current_page := Page.search_results } ∧
    (recipe_details_render true navS6).2 = [] := by
  have h := C9_null_details_recovery navS6 navS6_reachable (by decide)
    (by decide)
  exact ⟨h.1, (h.2.1 true).1, (h.2.1 true).2⟩

/-- Claim C10 witness: rendering a 1-item similar list on the
offset-10 session clamps the primary session offset. -/
theorem C10_witness :
    (similar_results_render [rcp 99] similarDemoState).state =
      { similarDemoState with
        current_offset :=
          max 0 ((([rcp 99] : List Recipe).length : Int) -
            RESULTS_PER_PAGE) } ∧
    (similar_results_render [rcp 99] similarDemoState).state.all_search_results
      = similarDemoState.all_search_results :=
  (C10_similar_render_touches_primary_offset).2.1 [rcp 99]
    similarDemoState (by decide) (by decide) (by decide)

end CookMyFood
